import Mathlib

/-!
# WTA Dashboard — Telemetry Relay and State Fan-out Engine, verified model

A shallow embedding of the core of `src/server/zmq-server.ts` (the Ingestion
Loop, State Aggregator, Response Synthesizer and Fan-out Broadcast Server) and
of the message data model (`src/app/types.ts`, aligned with the generated
protobuf types used by the server).

Conventions of the embedding:
* TypeScript `number` fields that carry real-valued data (positions, costs,
  probabilities, times) are modelled as `ℚ`; integer-valued identifiers and
  counters as `Nat`.
* Optional fields (`T | undefined`) are `Option T`.
* The wire format is an opaque token stream `List Nat`; the generated protobuf
  codec is not part of the repository sources, so the codec is modelled from
  the spec (see `WTAMessage.encode` / `WTAMessage.decode` below).
* One request/reply cycle of the Ingestion Loop is the pure step function
  `processBuffer`; the replies actually handed to the transport in that cycle
  are collected in the `replies` field of its result, and the fact that the
  WebSocket broadcast was triggered is the `broadcast` flag.
-/

namespace WTA

/-! ## Data model (src/app/types.ts, proto-aligned) -/

/-- World-plane coordinates (`Vec2` in types.ts). -/
structure Vec2 where
  x : ℚ
  y : ℚ
  deriving DecidableEq, Repr

/-- Ammunition counters (`AmmoState`). -/
structure AmmoState where
  missile : Nat
  bomb : Nat
  rocket : Nat
  deriving DecidableEq, Repr

/-- Magazine enrichment record (`MagazineDetail`). -/
structure MagazineDetail where
  name : String
  ammoCount : Nat
  loaded : Bool
  type : Nat
  location : String
  deriving DecidableEq, Repr

/-- Platform role enum (`PlatformRole`: UNKNOWN=0 … MULTI_ROLE=3). -/
inductive PlatformRole where
  | unknown
  | antiPersonnel
  | antiArmor
  | multiRole
  deriving DecidableEq, Repr

/-- Target kind enum (`TargetKind`: UNKNOWN=0 … OTHER=4). -/
inductive TargetKind where
  | unknown
  | infantry
  | armor
  | sam
  | other
  deriving DecidableEq, Repr

/-- Platform state record (`PlatformState`). -/
structure PlatformState where
  id : Nat
  role : PlatformRole
  pos : Option Vec2
  alive : Bool
  hitProb : ℚ
  cost : ℚ
  maxRange : ℚ
  maxTargets : Nat
  quantity : Nat
  ammo : Option AmmoState
  targetTypes : List Nat
  platformType : Option String
  magazines : Option (List MagazineDetail)
  fuel : Option ℚ
  damage : Option ℚ
  deriving DecidableEq, Repr

/-- Target state record (`TargetState`). -/
structure TargetState where
  id : Nat
  kind : TargetKind
  pos : Option Vec2
  alive : Bool
  value : ℚ
  tier : Nat
  targetType : Option String
  prerequisiteTargets : List Nat
  deriving DecidableEq, Repr

/-- Battlefield status report payload (`StatusReportEvent`). -/
structure StatusReportEvent where
  timestamp : ℚ
  platforms : List PlatformState
  targets : List TargetState
  deriving DecidableEq, Repr

/-- Planning request payload (`PlanRequest`): reason string plus the platform
and target lists, as read by the server (`message.planRequest.reason`,
`.platforms`, `.targets`). -/
structure PlanRequest where
  reason : String
  platforms : List PlatformState
  targets : List TargetState
  deriving DecidableEq, Repr

/-- Solver statistics block of a reply (`stats` of `PlanResponse`). -/
structure SolveStats where
  computationTime : ℚ
  iterations : Nat
  isValid : Bool
  coverageRate : ℚ
  deriving DecidableEq, Repr

/-- Reply value (`PlanResponse`): constructed fresh per request. The
`assignment` object (platformId → targetId) is modelled as an association
list. -/
structure PlanResponse where
  status : String
  timestamp : ℚ
  bestFitness : ℚ
  assignment : List (Nat × Nat)
  nPlatforms : Nat
  nTargets : Nat
  stats : SolveStats
  ttlSec : ℚ
  errorMsg : String
  deriving DecidableEq, Repr

/-- Entity-killed event payload, with the fields the server reads
(`entityType`, `entityId`). -/
structure EntityKilledEvent where
  entityType : String
  entityId : Nat
  deriving DecidableEq, Repr

/-- Damage event payload (`entityType`, `entityId`, `damageAmount`). -/
structure DamageEvent where
  entityType : String
  entityId : Nat
  damageAmount : ℚ
  deriving DecidableEq, Repr

/-- Weapon-fired event payload (`platformId`, `targetId`). -/
structure FiredEvent where
  platformId : Nat
  targetId : Nat
  deriving DecidableEq, Repr

/-- Top-level message: a protobuf `oneof` over six variants, represented (as
in the generated TypeScript) as one optional member per variant. A
correctly-encoded frame populates at most one. -/
structure WTAMessage where
  statusReport : Option StatusReportEvent
  planRequest : Option PlanRequest
  planResponse : Option PlanResponse
  entityKilled : Option EntityKilledEvent
  damage : Option DamageEvent
  fired : Option FiredEvent
  deriving DecidableEq, Repr

/-! ## Message Codec

Modelled from the spec: the binary wire-format schema itself is out of scope
and treated as an opaque typed-message codec (`src/proto/generated/wta_messages.ts`
is not among the repository sources; only its callers are).  Per spec §4.1 the
contract is `decode(bytes) → Frame | DecodeError` and `encode(Frame) → bytes`,
with a `DecodeError` carrying the byte length and a bounded preview of the
leading bytes, and decode of malformed/truncated input (such as an empty
buffer) failing.  Bytes are modelled as a token stream `List Nat`. -/

/-- Wire byte-stream abstraction. -/
abbrev Bytes := List Nat

/-- Decode failure diagnostic: byte length and a bounded preview of the
leading bytes (spec §4.1). -/
structure DecodeError where
  bufferLength : Nat
  firstBytes : Bytes
  deriving DecidableEq, Repr

/-! ### Primitive encoders and parsers -/

def encNat (n : Nat) : Bytes := [n]

def encBool (b : Bool) : Bytes := [if b then 1 else 0]

def encInt : Int → Bytes
  | .ofNat n => [0, n]
  | .negSucc n => [1, n]

def encRat (q : ℚ) : Bytes := encInt q.num ++ encNat q.den

def encChar (c : Char) : Bytes := [c.toNat]

/-- Concatenate element encodings. -/
def encMany (f : α → Bytes) (xs : List α) : Bytes :=
  xs.foldr (fun x acc => f x ++ acc) []

/-- Length-prefixed list encoding. -/
def encList (f : α → Bytes) (xs : List α) : Bytes :=
  encNat xs.length ++ encMany f xs

def encString (s : String) : Bytes :=
  encNat s.data.length ++ encMany encChar s.data

/-- Presence-tagged optional encoding (mirrors a protobuf `oneof` member /
optional field being present or absent). -/
def encOpt (f : α → Bytes) : Option α → Bytes
  | none => [0]
  | some a => 1 :: f a

def encPairNat (p : Nat × Nat) : Bytes := encNat p.1 ++ encNat p.2

def pNat : Bytes → Option (Nat × Bytes)
  | [] => none
  | n :: r => some (n, r)

def pBool (bs : Bytes) : Option (Bool × Bytes) := do
  let (n, r) ← pNat bs
  match n with
  | 0 => pure (false, r)
  | 1 => pure (true, r)
  | _ => none

def pInt (bs : Bytes) : Option (Int × Bytes) := do
  let (t, r) ← pNat bs
  let (n, r') ← pNat r
  match t with
  | 0 => pure ((n : Int), r')
  | 1 => pure (Int.negSucc n, r')
  | _ => none

def pRat (bs : Bytes) : Option (ℚ × Bytes) := do
  let (n, r) ← pInt bs
  let (d, r') ← pNat r
  pure ((n : ℚ) / (d : ℚ), r')

def pChar (bs : Bytes) : Option (Char × Bytes) := do
  let (n, r) ← pNat bs
  pure (Char.ofNat n, r)

def pListN (f : Bytes → Option (α × Bytes)) : Nat → Bytes → Option (List α × Bytes)
  | 0, bs => some ([], bs)
  | n + 1, bs => do
    let (x, r) ← f bs
    let (xs, r') ← pListN f n r
    pure (x :: xs, r')

def pList (f : Bytes → Option (α × Bytes)) (bs : Bytes) : Option (List α × Bytes) := do
  let (n, r) ← pNat bs
  pListN f n r

def pString (bs : Bytes) : Option (String × Bytes) := do
  let (n, r) ← pNat bs
  let (cs, r') ← pListN pChar n r
  pure (String.mk cs, r')

def pOpt (f : Bytes → Option (α × Bytes)) (bs : Bytes) : Option (Option α × Bytes) := do
  let (t, r) ← pNat bs
  match t with
  | 0 => pure ((none : Option α), r)
  | 1 => do
    let (a, r') ← f r
    pure (some a, r')
  | _ => none

def pPairNat (bs : Bytes) : Option ((Nat × Nat) × Bytes) := do
  let (a, r) ← pNat bs
  let (b, r') ← pNat r
  pure ((a, b), r')

/-! ### Primitive round-trip lemmas -/

theorem pNat_enc (n : Nat) (r : Bytes) : pNat (encNat n ++ r) = some (n, r) := rfl

theorem pBool_enc (b : Bool) (r : Bytes) : pBool (encBool b ++ r) = some (b, r) := by
  cases b <;> rfl

theorem pInt_enc (i : Int) (r : Bytes) : pInt (encInt i ++ r) = some (i, r) := by
  cases i <;> rfl

theorem pRat_enc (q : ℚ) (r : Bytes) : pRat (encRat q ++ r) = some (q, r) := by
  simp [pRat, encRat, List.append_assoc, pInt_enc, pNat_enc, Rat.num_div_den]

theorem pChar_enc (c : Char) (r : Bytes) : pChar (encChar c ++ r) = some (c, r) := by
  simp [pChar, encChar, pNat, Char.ofNat_toNat]

theorem encMany_cons (f : α → Bytes) (x : α) (xs : List α) :
    encMany f (x :: xs) = f x ++ encMany f xs := rfl

theorem pListN_encMany (f : Bytes → Option (α × Bytes)) (g : α → Bytes)
    (h : ∀ a r, f (g a ++ r) = some (a, r)) :
    ∀ (xs : List α) (r : Bytes), pListN f xs.length (encMany g xs ++ r) = some (xs, r) := by
  intro xs
  induction xs with
  | nil => intro r; rfl
  | cons x xs ih =>
    intro r
    simp [encMany_cons, List.append_assoc, pListN, h, ih r]

theorem pList_enc (f : Bytes → Option (α × Bytes)) (g : α → Bytes)
    (h : ∀ a r, f (g a ++ r) = some (a, r)) (xs : List α) (r : Bytes) :
    pList f (encList g xs ++ r) = some (xs, r) := by
  simp [pList, encList, encNat, List.append_assoc, pNat, pListN_encMany f g h]

theorem pString_enc (s : String) (r : Bytes) : pString (encString s ++ r) = some (s, r) := by
  cases s with
  | mk data =>
    simp [pString, encString, encNat, List.append_assoc, pNat,
      pListN_encMany pChar encChar pChar_enc data r]

theorem pOpt_enc (f : Bytes → Option (α × Bytes)) (g : α → Bytes)
    (h : ∀ a r, f (g a ++ r) = some (a, r)) (x : Option α) (r : Bytes) :
    pOpt f (encOpt g x ++ r) = some (x, r) := by
  cases x with
  | none => rfl
  | some a => simp [pOpt, encOpt, pNat, h]

theorem pPairNat_enc (p : Nat × Nat) (r : Bytes) :
    pPairNat (encPairNat p ++ r) = some (p, r) := by
  simp [pPairNat, encPairNat, encNat, List.append_assoc, pNat]

/-! ### Structure encoders and parsers -/

def PlatformRole.toWire : PlatformRole → Nat
  | .unknown => 0
  | .antiPersonnel => 1
  | .antiArmor => 2
  | .multiRole => 3

def encRole (r : PlatformRole) : Bytes := [r.toWire]

def pRole (bs : Bytes) : Option (PlatformRole × Bytes) := do
  let (n, r) ← pNat bs
  match n with
  | 0 => pure (PlatformRole.unknown, r)
  | 1 => pure (PlatformRole.antiPersonnel, r)
  | 2 => pure (PlatformRole.antiArmor, r)
  | 3 => pure (PlatformRole.multiRole, r)
  | _ => none

def TargetKind.toWire : TargetKind → Nat
  | .unknown => 0
  | .infantry => 1
  | .armor => 2
  | .sam => 3
  | .other => 4

def encKind (k : TargetKind) : Bytes := [k.toWire]

def pKind (bs : Bytes) : Option (TargetKind × Bytes) := do
  let (n, r) ← pNat bs
  match n with
  | 0 => pure (TargetKind.unknown, r)
  | 1 => pure (TargetKind.infantry, r)
  | 2 => pure (TargetKind.armor, r)
  | 3 => pure (TargetKind.sam, r)
  | 4 => pure (TargetKind.other, r)
  | _ => none

def encVec2 (v : Vec2) : Bytes := encRat v.x ++ encRat v.y

def pVec2 (bs : Bytes) : Option (Vec2 × Bytes) := do
  let (x, r) ← pRat bs
  let (y, r') ← pRat r
  pure (⟨x, y⟩, r')

def encAmmo (a : AmmoState) : Bytes :=
  encNat a.missile ++ encNat a.bomb ++ encNat a.rocket

def pAmmo (bs : Bytes) : Option (AmmoState × Bytes) := do
  let (m, r) ← pNat bs
  let (b, r') ← pNat r
  let (k, r'') ← pNat r'
  pure (⟨m, b, k⟩, r'')

def encMagazine (m : MagazineDetail) : Bytes :=
  encString m.name ++ encNat m.ammoCount ++ encBool m.loaded ++
    encNat m.type ++ encString m.location

def pMagazine (bs : Bytes) : Option (MagazineDetail × Bytes) :=
  match pString bs with
  | none => none
  | some (name, r1) =>
  match pNat r1 with
  | none => none
  | some (ammoCount, r2) =>
  match pBool r2 with
  | none => none
  | some (loaded, r3) =>
  match pNat r3 with
  | none => none
  | some (ty, r4) =>
  match pString r4 with
  | none => none
  | some (loc, r5) => some (⟨name, ammoCount, loaded, ty, loc⟩, r5)

def encPlatform (p : PlatformState) : Bytes :=
  encNat p.id ++ encRole p.role ++ encOpt encVec2 p.pos ++ encBool p.alive ++
    encRat p.hitProb ++ encRat p.cost ++ encRat p.maxRange ++ encNat p.maxTargets ++
    encNat p.quantity ++ encOpt encAmmo p.ammo ++ encList encNat p.targetTypes ++
    encOpt encString p.platformType ++ encOpt (encList encMagazine) p.magazines ++
    encOpt encRat p.fuel ++ encOpt encRat p.damage

def pPlatform (bs : Bytes) : Option (PlatformState × Bytes) :=
  match pNat bs with
  | none => none
  | some (id, r1) =>
  match pRole r1 with
  | none => none
  | some (role, r2) =>
  match pOpt pVec2 r2 with
  | none => none
  | some (pos, r3) =>
  match pBool r3 with
  | none => none
  | some (alive, r4) =>
  match pRat r4 with
  | none => none
  | some (hitProb, r5) =>
  match pRat r5 with
  | none => none
  | some (cost, r6) =>
  match pRat r6 with
  | none => none
  | some (maxRange, r7) =>
  match pNat r7 with
  | none => none
  | some (maxTargets, r8) =>
  match pNat r8 with
  | none => none
  | some (quantity, r9) =>
  match pOpt pAmmo r9 with
  | none => none
  | some (ammo, r10) =>
  match pList pNat r10 with
  | none => none
  | some (targetTypes, r11) =>
  match pOpt pString r11 with
  | none => none
  | some (platformType, r12) =>
  match pOpt (pList pMagazine) r12 with
  | none => none
  | some (magazines, r13) =>
  match pOpt pRat r13 with
  | none => none
  | some (fuel, r14) =>
  match pOpt pRat r14 with
  | none => none
  | some (damage, r15) => some (⟨id, role, pos, alive, hitProb, cost, maxRange, maxTargets, quantity, ammo, targetTypes, platformType, magazines, fuel, damage⟩, r15)

def encTarget (t : TargetState) : Bytes :=
  encNat t.id ++ encKind t.kind ++ encOpt encVec2 t.pos ++ encBool t.alive ++
    encRat t.value ++ encNat t.tier ++ encOpt encString t.targetType ++
    encList encNat t.prerequisiteTargets

def pTarget (bs : Bytes) : Option (TargetState × Bytes) :=
  match pNat bs with
  | none => none
  | some (id, r1) =>
  match pKind r1 with
  | none => none
  | some (kind, r2) =>
  match pOpt pVec2 r2 with
  | none => none
  | some (pos, r3) =>
  match pBool r3 with
  | none => none
  | some (alive, r4) =>
  match pRat r4 with
  | none => none
  | some (value, r5) =>
  match pNat r5 with
  | none => none
  | some (tier, r6) =>
  match pOpt pString r6 with
  | none => none
  | some (targetType, r7) =>
  match pList pNat r7 with
  | none => none
  | some (prereq, r8) => some (⟨id, kind, pos, alive, value, tier, targetType, prereq⟩, r8)

def encStatusReport (sr : StatusReportEvent) : Bytes :=
  encRat sr.timestamp ++ encList encPlatform sr.platforms ++ encList encTarget sr.targets

def pStatusReport (bs : Bytes) : Option (StatusReportEvent × Bytes) := do
  let (ts, r1) ← pRat bs
  let (ps, r2) ← pList pPlatform r1
  let (tg, r3) ← pList pTarget r2
  pure (⟨ts, ps, tg⟩, r3)

def encPlanRequest (pr : PlanRequest) : Bytes :=
  encString pr.reason ++ encList encPlatform pr.platforms ++ encList encTarget pr.targets

def pPlanRequest (bs : Bytes) : Option (PlanRequest × Bytes) := do
  let (reason, r1) ← pString bs
  let (ps, r2) ← pList pPlatform r1
  let (tg, r3) ← pList pTarget r2
  pure (⟨reason, ps, tg⟩, r3)

def encStats (s : SolveStats) : Bytes :=
  encRat s.computationTime ++ encNat s.iterations ++ encBool s.isValid ++
    encRat s.coverageRate

def pStats (bs : Bytes) : Option (SolveStats × Bytes) :=
  match pRat bs with
  | none => none
  | some (ct, r1) =>
  match pNat r1 with
  | none => none
  | some (it, r2) =>
  match pBool r2 with
  | none => none
  | some (iv, r3) =>
  match pRat r3 with
  | none => none
  | some (cr, r4) => some (⟨ct, it, iv, cr⟩, r4)

def encPlanResponse (p : PlanResponse) : Bytes :=
  encString p.status ++ encRat p.timestamp ++ encRat p.bestFitness ++
    encList encPairNat p.assignment ++ encNat p.nPlatforms ++ encNat p.nTargets ++
    encStats p.stats ++ encRat p.ttlSec ++ encString p.errorMsg

def pPlanResponse (bs : Bytes) : Option (PlanResponse × Bytes) :=
  match pString bs with
  | none => none
  | some (status, r1) =>
  match pRat r1 with
  | none => none
  | some (ts, r2) =>
  match pRat r2 with
  | none => none
  | some (bf, r3) =>
  match pList pPairNat r3 with
  | none => none
  | some (asg, r4) =>
  match pNat r4 with
  | none => none
  | some (np, r5) =>
  match pNat r5 with
  | none => none
  | some (nt, r6) =>
  match pStats r6 with
  | none => none
  | some (stats, r7) =>
  match pRat r7 with
  | none => none
  | some (ttl, r8) =>
  match pString r8 with
  | none => none
  | some (em, r9) => some (⟨status, ts, bf, asg, np, nt, stats, ttl, em⟩, r9)

def encEntityKilled (e : EntityKilledEvent) : Bytes :=
  encString e.entityType ++ encNat e.entityId

def pEntityKilled (bs : Bytes) : Option (EntityKilledEvent × Bytes) := do
  let (et, r1) ← pString bs
  let (ei, r2) ← pNat r1
  pure (⟨et, ei⟩, r2)

def encDamage (d : DamageEvent) : Bytes :=
  encString d.entityType ++ encNat d.entityId ++ encRat d.damageAmount

def pDamage (bs : Bytes) : Option (DamageEvent × Bytes) := do
  let (et, r1) ← pString bs
  let (ei, r2) ← pNat r1
  let (da, r3) ← pRat r2
  pure (⟨et, ei, da⟩, r3)

def encFired (f : FiredEvent) : Bytes :=
  encNat f.platformId ++ encNat f.targetId

def pFired (bs : Bytes) : Option (FiredEvent × Bytes) := do
  let (pi, r1) ← pNat bs
  let (ti, r2) ← pNat r1
  pure (⟨pi, ti⟩, r2)

/-- Encoder `encode(Frame) → bytes` (spec §4.1): one presence-tagged slot per oneof
member, in declaration order. -/
def WTAMessage.encode (m : WTAMessage) : Bytes :=
  encOpt encStatusReport m.statusReport ++ encOpt encPlanRequest m.planRequest ++
    encOpt encPlanResponse m.planResponse ++ encOpt encEntityKilled m.entityKilled ++
    encOpt encDamage m.damage ++ encOpt encFired m.fired

def pWTAMessage (bs : Bytes) : Option (WTAMessage × Bytes) :=
  match pOpt pStatusReport bs with
  | none => none
  | some (sr, r1) =>
  match pOpt pPlanRequest r1 with
  | none => none
  | some (pr, r2) =>
  match pOpt pPlanResponse r2 with
  | none => none
  | some (prsp, r3) =>
  match pOpt pEntityKilled r3 with
  | none => none
  | some (ek, r4) =>
  match pOpt pDamage r4 with
  | none => none
  | some (dm, r5) =>
  match pOpt pFired r5 with
  | none => none
  | some (fr, r6) => some (⟨sr, pr, prsp, ek, dm, fr⟩, r6)

/-- Decoder `decode(bytes) → Frame | DecodeError` (spec §4.1): a malformed, truncated
or trailing-garbage buffer fails with a `DecodeError` carrying the byte length
and a bounded preview of the leading bytes. -/
def WTAMessage.decode (bs : Bytes) : Except DecodeError WTAMessage :=
  match pWTAMessage bs with
  | some (m, []) => .ok m
  | _ => .error ⟨bs.length, bs.take 32⟩

/-! ### Structure round-trip lemmas -/

theorem pRole_enc (x : PlatformRole) (r : Bytes) : pRole (encRole x ++ r) = some (x, r) := by
  cases x <;> rfl

theorem pKind_enc (x : TargetKind) (r : Bytes) : pKind (encKind x ++ r) = some (x, r) := by
  cases x <;> rfl

theorem pVec2_enc (v : Vec2) (r : Bytes) : pVec2 (encVec2 v ++ r) = some (v, r) := by
  simp [pVec2, encVec2, List.append_assoc, pRat_enc]

theorem pAmmo_enc (a : AmmoState) (r : Bytes) : pAmmo (encAmmo a ++ r) = some (a, r) := by
  simp [pAmmo, encAmmo, encNat, List.append_assoc, pNat]

theorem pMagazine_enc (m : MagazineDetail) (r : Bytes) :
    pMagazine (encMagazine m ++ r) = some (m, r) := by
  simp [pMagazine, encMagazine, encNat, List.append_assoc, pString_enc, pNat, pBool_enc]

theorem pPlatform_enc (p : PlatformState) (r : Bytes) :
    pPlatform (encPlatform p ++ r) = some (p, r) := by
  simp [pPlatform, encPlatform, encNat, List.append_assoc, pNat, pRole_enc,
    pOpt_enc pVec2 encVec2 pVec2_enc, pBool_enc, pRat_enc,
    pOpt_enc pAmmo encAmmo pAmmo_enc,
    pList_enc pNat encNat pNat_enc,
    pOpt_enc pString encString pString_enc,
    pOpt_enc (pList pMagazine) (encList encMagazine)
      (pList_enc pMagazine encMagazine pMagazine_enc),
    pOpt_enc pRat encRat pRat_enc]

theorem pTarget_enc (t : TargetState) (r : Bytes) :
    pTarget (encTarget t ++ r) = some (t, r) := by
  simp [pTarget, encTarget, encNat, List.append_assoc, pNat, pKind_enc,
    pOpt_enc pVec2 encVec2 pVec2_enc, pBool_enc, pRat_enc,
    pOpt_enc pString encString pString_enc,
    pList_enc pNat encNat pNat_enc]

theorem pStatusReport_enc (sr : StatusReportEvent) (r : Bytes) :
    pStatusReport (encStatusReport sr ++ r) = some (sr, r) := by
  simp [pStatusReport, encStatusReport, List.append_assoc, pRat_enc,
    pList_enc pPlatform encPlatform pPlatform_enc,
    pList_enc pTarget encTarget pTarget_enc]

theorem pPlanRequest_enc (pr : PlanRequest) (r : Bytes) :
    pPlanRequest (encPlanRequest pr ++ r) = some (pr, r) := by
  simp [pPlanRequest, encPlanRequest, List.append_assoc, pString_enc,
    pList_enc pPlatform encPlatform pPlatform_enc,
    pList_enc pTarget encTarget pTarget_enc]

theorem pStats_enc (s : SolveStats) (r : Bytes) : pStats (encStats s ++ r) = some (s, r) := by
  simp [pStats, encStats, encNat, List.append_assoc, pRat_enc, pNat, pBool_enc]

theorem pPlanResponse_enc (p : PlanResponse) (r : Bytes) :
    pPlanResponse (encPlanResponse p ++ r) = some (p, r) := by
  simp [pPlanResponse, encPlanResponse, encNat, List.append_assoc, pString_enc,
    pRat_enc, pNat, pStats_enc,
    pList_enc pPairNat encPairNat pPairNat_enc]

theorem pEntityKilled_enc (e : EntityKilledEvent) (r : Bytes) :
    pEntityKilled (encEntityKilled e ++ r) = some (e, r) := by
  simp [pEntityKilled, encEntityKilled, encNat, List.append_assoc, pString_enc, pNat]

theorem pDamage_enc (d : DamageEvent) (r : Bytes) :
    pDamage (encDamage d ++ r) = some (d, r) := by
  simp [pDamage, encDamage, encNat, List.append_assoc, pString_enc, pNat, pRat_enc]

theorem pFired_enc (f : FiredEvent) (r : Bytes) :
    pFired (encFired f ++ r) = some (f, r) := by
  simp [pFired, encFired, encNat, List.append_assoc, pNat]

theorem pWTAMessage_enc (m : WTAMessage) (r : Bytes) :
    pWTAMessage (WTAMessage.encode m ++ r) = some (m, r) := by
  simp [pWTAMessage, WTAMessage.encode, List.append_assoc,
    pOpt_enc pStatusReport encStatusReport pStatusReport_enc,
    pOpt_enc pPlanRequest encPlanRequest pPlanRequest_enc,
    pOpt_enc pPlanResponse encPlanResponse pPlanResponse_enc,
    pOpt_enc pEntityKilled encEntityKilled pEntityKilled_enc,
    pOpt_enc pDamage encDamage pDamage_enc,
    pOpt_enc pFired encFired pFired_enc]

/-! ## State Aggregator (zmq-server.ts lines 90–104)

`StoredData` is the single mutable "latest snapshot"; `latestData` is created
empty at process start. -/

/-- The Aggregator's snapshot (`StoredData` in zmq-server.ts). -/
structure StoredData where
  timestamp : Option String
  platforms : List PlatformState
  targets : List TargetState
  messageType : String
  deriving DecidableEq, Repr

/-- Initial value of `latestData`: `timestamp=null`, empty lists,
`messageType='none'`. -/
def initialData : StoredData :=
  { timestamp := none, platforms := [], targets := [], messageType := "none" }

/-- Change-detection heuristic (zmq-server.ts lines 176–199): `dataChanged`
is true when the platform count differs, or when the counts agree, both lists
are non-empty and the first platform moved more than 0.1 distance units.
The source compares `Math.sqrt(dx² + dy²) > 0.1`; the model compares the
squared distance against `1/100`, which is equivalent for a non-negative
radicand.  Missing positions default to `(0, 0)` as in the source
(`p.pos || { x: 0, y: 0 }`). -/
def dataChangedCheck (old : StoredData) (sr : StatusReportEvent) : Bool :=
  if old.platforms.length = sr.platforms.length then
    match old.platforms, sr.platforms with
    | p :: _, q :: _ =>
      let oldPos := p.pos.getD ⟨0, 0⟩
      let newPos := q.pos.getD ⟨0, 0⟩
      decide ((newPos.x - oldPos.x) ^ 2 + (newPos.y - oldPos.y) ^ 2 > (1 : ℚ) / 100)
    | _, _ => false
  else true

/-! ## Ingestion Loop step (zmq-server.ts lines 116–427)

One iteration of `for await (const [msg] of sock)`: decode, classify by the
`oneof` presence chain, update the Aggregator for status reports, synthesize
and send exactly one reply.  `now` is the receipt time computed at line 119
(`new Date().toISOString()`); `nowTs` is the reply timestamp
(`Date.now() / 1000`). -/

/-- Observable outcome of processing one inbound request: the snapshot after
the step, the replies handed to `sock.send` during the step, and whether
`broadcastToClients()` was invoked. -/
structure StepResult where
  data : StoredData
  replies : List PlanResponse
  broadcast : Bool
  deriving DecidableEq, Repr

/-- Classification and dispatch of a successfully decoded message
(zmq-server.ts lines 125–399).  The `oneof` members are tested in source
order (`statusReport`, `planRequest`, `entityKilled`, `damage`, `fired`,
else unknown) — first match wins.  Each branch constructs the reply record
literally as in the source. -/
def processMessage (st : StoredData) (now : String) (nowTs : ℚ)
    (msg : WTAMessage) : StepResult :=
  match msg.statusReport, msg.planRequest, msg.entityKilled, msg.damage, msg.fired with
  | some sr, _, _, _, _ =>
    -- lines 176–199: diagnostic only; feeds logging, gates nothing
    let _dataChanged := dataChangedCheck st sr
    -- lines 201–204: wholesale snapshot replace
    let newData : StoredData :=
      { timestamp := some now
        platforms := sr.platforms
        targets := sr.targets
        messageType := "status_report" }
    -- line 207: broadcastToClients(); lines 210–229: ack reply
    { data := newData
      broadcast := true
      replies :=
        [{ status := "ok"
           timestamp := nowTs
           bestFitness := 0
           assignment := []
           nPlatforms := 0
           nTargets := 0
           stats := { computationTime := 0, iterations := 0, isValid := true, coverageRate := 0 }
           ttlSec := 0
           errorMsg := "" }] }
  | none, some pr, _, _, _ =>
    -- lines 283–302: placeholder planning reply
    { data := st
      broadcast := false
      replies :=
        [{ status := "ok"
           timestamp := nowTs
           bestFitness := 0
           assignment := []
           nPlatforms := pr.platforms.length
           nTargets := pr.targets.length
           stats := { computationTime := 1 / 1000, iterations := 0, isValid := true, coverageRate := 0 }
           ttlSec := 2
           errorMsg := "" }] }
  | none, none, some _, _, _ =>
    -- lines 317–329: entity-killed ack
    { data := st
      broadcast := false
      replies :=
        [{ status := "ok"
           timestamp := nowTs
           bestFitness := 0
           assignment := []
           nPlatforms := 0
           nTargets := 0
           stats := { computationTime := 0, iterations := 0, isValid := true, coverageRate := 0 }
           ttlSec := 0
           errorMsg := "" }] }
  | none, none, none, some _, _ =>
    -- lines 344–356: damage ack
    { data := st
      broadcast := false
      replies :=
        [{ status := "ok"
           timestamp := nowTs
           bestFitness := 0
           assignment := []
           nPlatforms := 0
           nTargets := 0
           stats := { computationTime := 0, iterations := 0, isValid := true, coverageRate := 0 }
           ttlSec := 0
           errorMsg := "" }] }
  | none, none, none, none, some _ =>
    -- lines 370–382: fired ack
    { data := st
      broadcast := false
      replies :=
        [{ status := "ok"
           timestamp := nowTs
           bestFitness := 0
           assignment := []
           nPlatforms := 0
           nTargets := 0
           stats := { computationTime := 0, iterations := 0, isValid := true, coverageRate := 0 }
           ttlSec := 0
           errorMsg := "" }] }
  | none, none, none, none, none =>
    -- lines 384–398: unknown message type
    { data := st
      broadcast := false
      replies :=
        [{ status := "error"
           timestamp := nowTs
           bestFitness := 0
           assignment := []
           nPlatforms := 0
           nTargets := 0
           stats := { computationTime := 0, iterations := 0, isValid := false, coverageRate := 0 }
           ttlSec := 0
           errorMsg := "Unknown message type" }] }

/-- One full request/reply cycle on a raw buffer (zmq-server.ts lines
124–422): decode, then dispatch; on decode failure send the decode-error
reply (lines 401–421) and leave the snapshot untouched. -/
def processBuffer (st : StoredData) (now : String) (nowTs : ℚ)
    (buf : Bytes) : StepResult :=
  match WTAMessage.decode buf with
  | .ok m => processMessage st now nowTs m
  | .error _ =>
    { data := st
      broadcast := false
      replies :=
        [{ status := "error"
           timestamp := nowTs
           bestFitness := 0
           assignment := []
           nPlatforms := 0
           nTargets := 0
           stats := { computationTime := 0, iterations := 0, isValid := false, coverageRate := 0 }
           ttlSec := 0
           errorMsg := "Protobuf decode failed" }] }

/-! ## Fan-out Broadcast Server (zmq-server.ts lines 431–469)

`broadcastToClients` iterates the subscriber set, sending the serialized
snapshot to every handle in the open state; handles that are not open, or
whose send throws, are collected in the `disconnected` list during the pass
and removed from the set only after the pass completes. -/

/-- A WebSocket subscriber handle: `readyState` as reported by the handle
(`WebSocket.OPEN = 1`), and whether `client.send` throws. -/
structure WsClient where
  id : Nat
  readyState : Nat
  sendFails : Bool
  deriving DecidableEq, Repr

/-- Constant `WebSocket.OPEN`. -/
def wsOPEN : Nat := 1

/-- Pass over `wsClients` (the `forEach` of lines 450–461): returns the
successful deliveries `(client id, payload)` and the `disconnected` list
accumulated during the pass.  Marking a client never interrupts the pass:
every client is visited. -/
def broadcastPass (payload : String) : List WsClient → List (Nat × String) × List WsClient
  | [] => ([], [])
  | c :: cs =>
    let rest := broadcastPass payload cs
    if c.readyState = wsOPEN then
      if c.sendFails then (rest.1, c :: rest.2)
      else ((c.id, payload) :: rest.1, rest.2)
    else (rest.1, c :: rest.2)

/-- Function `broadcastToClients` (lines 431–469): skip when no clients are connected;
otherwise run the pass and then sweep the disconnected clients out of the set
(lines 464: `disconnected.forEach(client => wsClients.delete(client))`).
Returns the subscriber set for the next pass and this pass's deliveries. -/
def broadcastToClients (clients : List WsClient) (payload : String) :
    List WsClient × List (Nat × String) :=
  if clients.isEmpty then (clients, [])
  else
    let pass := broadcastPass payload clients
    (clients.filter (fun c => decide (c ∉ pass.2)), pass.1)

/-! ## Helper lemmas on the broadcast pass -/

/-- The deliveries of a pass: exactly the open, non-failing clients, in set
order, each receiving the pass's payload. -/
theorem broadcastPass_sent (payload : String) (cs : List WsClient) :
    (broadcastPass payload cs).1 =
      (cs.filter fun c => decide (c.readyState = wsOPEN) && !c.sendFails).map
        (fun c => (c.id, payload)) := by
  induction cs with
  | nil => rfl
  | cons c cs ih =>
    by_cases h1 : c.readyState = wsOPEN <;> cases h2 : c.sendFails <;>
      simp [broadcastPass, List.filter_cons, h1, h2, ih]

/-- The `disconnected` accumulator of a pass: exactly the clients that are
not open or whose send throws. -/
theorem broadcastPass_disc (payload : String) (cs : List WsClient) :
    (broadcastPass payload cs).2 =
      cs.filter fun c => !decide (c.readyState = wsOPEN) || c.sendFails := by
  induction cs with
  | nil => rfl
  | cons c cs ih =>
    by_cases h1 : c.readyState = wsOPEN <;> cases h2 : c.sendFails <;>
      simp [broadcastPass, List.filter_cons, h1, h2, ih]

/-! ## Concrete sample values (spec §8 scenarios) -/

/-- Sample platform at `(1000, 2000)` (as in `src/proto/example-usage.ts`). -/
def samplePlatform : PlatformState :=
  { id := 1, role := PlatformRole.antiPersonnel, pos := some ⟨1000, 2000⟩,
    alive := true, hitProb := 85 / 100, cost := 1, maxRange := 5000,
    maxTargets := 2, quantity := 1, ammo := some ⟨4, 2, 0⟩,
    targetTypes := [1, 2], platformType := none, magazines := none,
    fuel := none, damage := none }

/-- Sample target at `(3000, 4000)` with value 50 (as in example-usage.ts). -/
def sampleTarget : TargetState :=
  { id := 101, kind := TargetKind.infantry, pos := some ⟨3000, 4000⟩,
    alive := true, value := 50, tier := 1, targetType := none,
    prerequisiteTargets := [] }

/-- Sample status report: one platform, one target. -/
def sampleStatusReport : StatusReportEvent :=
  { timestamp := 12345, platforms := [samplePlatform], targets := [sampleTarget] }

/-- Frame whose populated variant is the sample status report. -/
def sampleStatusMsg : WTAMessage :=
  { statusReport := some sampleStatusReport, planRequest := none,
    planResponse := none, entityKilled := none, damage := none, fired := none }

/-- Sample planning request with 2 platforms and 3 targets (spec §8 scenario). -/
def samplePlanRequest : PlanRequest :=
  { reason := "periodic"
    platforms := [samplePlatform, { samplePlatform with id := 2 }]
    targets := [sampleTarget, { sampleTarget with id := 102 },
      { sampleTarget with id := 103 }] }

/-- Frame whose populated variant is the sample plan request. -/
def samplePlanMsg : WTAMessage :=
  { statusReport := none, planRequest := some samplePlanRequest,
    planResponse := none, entityKilled := none, damage := none, fired := none }

/-- Frame with none of the variants populated. -/
def emptyMsg : WTAMessage :=
  { statusReport := none, planRequest := none, planResponse := none,
    entityKilled := none, damage := none, fired := none }

/-- Frame whose populated variant is an entity-killed event. -/
def sampleKilledMsg : WTAMessage :=
  { emptyMsg with entityKilled := some ⟨"platform", 7⟩ }

/-- Frame whose populated variant is a damage event. -/
def sampleDamageMsg : WTAMessage :=
  { emptyMsg with damage := some ⟨"target", 3, 1 / 4⟩ }

/-- Frame whose populated variant is a fired event. -/
def sampleFiredMsg : WTAMessage :=
  { emptyMsg with fired := some ⟨1, 101⟩ }

/-! ## Claims -/

/-- C1: For every well-formed StatusReport frame, after the Ingestion Loop
processes it the stored Snapshot's platform list and target list equal
exactly the frame's platform and target lists and the Snapshot's timestamp is
non-null; for every processed frame that is not a StatusReport (including a
decode failure), the Snapshot is unchanged by that processing step. -/
theorem statusReport_updates_snapshot_others_preserve
    (st : StoredData) (now : String) (nowTs : ℚ) (msg : WTAMessage) (buf : Bytes) :
    (∀ sr, msg.statusReport = some sr →
      (processMessage st now nowTs msg).data.platforms = sr.platforms ∧
      (processMessage st now nowTs msg).data.targets = sr.targets ∧
      (processMessage st now nowTs msg).data.timestamp.isSome = true) ∧
    (msg.statusReport = none → (processMessage st now nowTs msg).data = st) ∧
    (∀ e, WTAMessage.decode buf = Except.error e →
      (processBuffer st now nowTs buf).data = st) := by
  obtain ⟨s, p, q, k, d, f⟩ := msg
  refine ⟨?_, ?_, ?_⟩
  · intro sr hs
    cases hs
    simp [processMessage]
  · intro hs
    cases hs
    cases p <;> cases k <;> cases d <;> cases f <;> simp [processMessage]
  · intro e he
    simp [processBuffer, he]

/-- Witness for C1: the sample StatusReport frame stores its lists, the
sample Fired frame and the empty buffer leave the initial Snapshot unchanged. -/
theorem statusReport_updates_snapshot_others_preserve_witness :
    (processMessage initialData "2024-01-01T00:00:00.000Z" 0 sampleStatusMsg).data.platforms
        = [samplePlatform] ∧
    (processMessage initialData "2024-01-01T00:00:00.000Z" 0 sampleFiredMsg).data
        = initialData ∧
    (processBuffer initialData "2024-01-01T00:00:00.000Z" 0 []).data = initialData := by
  refine ⟨?_, ?_, ?_⟩
  · exact ((statusReport_updates_snapshot_others_preserve initialData
      "2024-01-01T00:00:00.000Z" 0 sampleStatusMsg []).1 sampleStatusReport rfl).1
  · exact (statusReport_updates_snapshot_others_preserve initialData
      "2024-01-01T00:00:00.000Z" 0 sampleFiredMsg []).2.1 rfl
  · exact (statusReport_updates_snapshot_others_preserve initialData
      "2024-01-01T00:00:00.000Z" 0 sampleFiredMsg []).2.2 ⟨0, []⟩ rfl

/-- C2: every request accepted by the Ingestion Loop yields exactly one
reply, whose status is "ok" or "error"; a decode failure still yields exactly
one reply, with status "error" and a non-empty errorMsg. -/
theorem every_request_exactly_one_reply
    (st : StoredData) (now : String) (nowTs : ℚ) (buf : Bytes) :
    (processBuffer st now nowTs buf).replies.length = 1 ∧
    (∀ r ∈ (processBuffer st now nowTs buf).replies,
      r.status = "ok" ∨ r.status = "error") ∧
    (∀ e, WTAMessage.decode buf = Except.error e →
      ∀ r ∈ (processBuffer st now nowTs buf).replies,
        r.status = "error" ∧ r.errorMsg ≠ "") := by
  cases hdec : WTAMessage.decode buf with
  | error e =>
    refine ⟨?_, ?_, ?_⟩ <;> simp [processBuffer, hdec]
  | ok m =>
    obtain ⟨s, p, q, k, d, f⟩ := m
    cases s <;> cases p <;> cases k <;> cases d <;> cases f <;>
      refine ⟨?_, ?_, ?_⟩ <;> simp [processBuffer, hdec, processMessage]

/-- Witness for C2: the empty buffer (a decode failure) yields one reply with
status "error" and non-empty errorMsg. -/
theorem every_request_exactly_one_reply_witness :
    (processBuffer initialData "t0" 0 []).replies.length = 1 ∧
    ((processBuffer initialData "t0" 0 []).replies.map PlanResponse.status)
        = ["error"] := by
  have h := every_request_exactly_one_reply initialData "t0" 0 []
  refine ⟨h.1, ?_⟩
  rfl

/-- C3: the change-detection heuristic never gates storage or broadcast: for
every accepted StatusReport frame, whatever verdict `dataChangedCheck`
returns, the Snapshot is replaced wholesale and the broadcast to subscribers
is triggered. -/
theorem change_heuristic_never_gates_store_or_broadcast
    (st : StoredData) (now : String) (nowTs : ℚ) (msg : WTAMessage)
    (sr : StatusReportEvent) (b : Bool)
    (hmsg : msg.statusReport = some sr) (hb : dataChangedCheck st sr = b) :
    (processMessage st now nowTs msg).broadcast = true ∧
    (processMessage st now nowTs msg).data =
      { timestamp := some now, platforms := sr.platforms, targets := sr.targets,
        messageType := "status_report" } := by
  obtain ⟨s, p, q, k, d, f⟩ := msg
  cases hmsg
  simp [processMessage]

/-- Witness for C3 at the sample StatusReport over the initial state, where
the heuristic verdict is `true` (platform count changed). -/
theorem change_heuristic_never_gates_store_or_broadcast_witness :
    dataChangedCheck initialData sampleStatusReport = true ∧
    (processMessage initialData "t1" 0 sampleStatusMsg).broadcast = true ∧
    (processMessage initialData "t1" 0 sampleStatusMsg).data =
      { timestamp := some "t1", platforms := [samplePlatform],
        targets := [sampleTarget], messageType := "status_report" } := by
  have h := change_heuristic_never_gates_store_or_broadcast initialData "t1" 0
    sampleStatusMsg sampleStatusReport true rfl (by rfl)
  exact ⟨rfl, h.1, h.2⟩

/-- C4: ingesting an empty byte buffer yields one reply with status "error"
whose errorMsg mentions decode failure, and leaves the Snapshot unchanged. -/
theorem empty_buffer_error_reply_snapshot_unchanged
    (st : StoredData) (now : String) (nowTs : ℚ) :
    ((processBuffer st now nowTs []).replies.map fun r => (r.status, r.errorMsg)) =
      [("error", "Protobuf decode failed")] ∧
    (processBuffer st now nowTs []).data = st :=
  ⟨rfl, rfl⟩

/-- C5 counterexample: the claim says the ack reply for a StatusReport frame
carries zero-valued stats (every field zero/false), but the reply the code
builds has `stats.isValid = true` (zmq-server.ts line 220). -/
theorem ack_stats_zero_valued_counterexample :
    ((processMessage initialData "t2" 0 sampleStatusMsg).replies.map
        fun r => r.stats.isValid) ≠ [false] := by
  decide

/-- C5 (amended): for every StatusReport, EntityKilled, Damage and Fired
frame, the reply is an acknowledgment with status "ok", empty assignment,
ttlSec 0, and stats with computationTime 0, iterations 0, coverageRate 0 and
isValid true. -/
theorem ack_reply_shape_for_status_and_events
    (st : StoredData) (now : String) (nowTs : ℚ) (msg : WTAMessage)
    (ack : PlanResponse)
    (hack : ack =
      { status := "ok"
        timestamp := nowTs
        bestFitness := 0
        assignment := []
        nPlatforms := 0
        nTargets := 0
        stats := { computationTime := 0, iterations := 0, isValid := true, coverageRate := 0 }
        ttlSec := 0
        errorMsg := "" }) :
    (msg.statusReport.isSome = true →
      (processMessage st now nowTs msg).replies = [ack]) ∧
    (msg.statusReport = none → msg.planRequest = none →
      msg.entityKilled.isSome = true →
      (processMessage st now nowTs msg).replies = [ack]) ∧
    (msg.statusReport = none → msg.planRequest = none →
      msg.entityKilled = none → msg.damage.isSome = true →
      (processMessage st now nowTs msg).replies = [ack]) ∧
    (msg.statusReport = none → msg.planRequest = none →
      msg.entityKilled = none → msg.damage = none → msg.fired.isSome = true →
      (processMessage st now nowTs msg).replies = [ack]) := by
  cases hack
  obtain ⟨s, p, q, k, d, f⟩ := msg
  refine ⟨?_, ?_, ?_, ?_⟩
  · intro hs
    cases s with
    | none => simp at hs
    | some sr => simp [processMessage]
  · intro hs hp hk
    cases hs; cases hp
    cases k with
    | none => simp at hk
    | some ek => simp [processMessage]
  · intro hs hp hk hd
    cases hs; cases hp; cases hk
    cases d with
    | none => simp at hd
    | some dm => simp [processMessage]
  · intro hs hp hk hd hf
    cases hs; cases hp; cases hk; cases hd
    cases f with
    | none => simp at hf
    | some fr => simp [processMessage]

/-- Witness for C5 (amended): the sample StatusReport, EntityKilled, Damage
and Fired frames all get the same literal acknowledgment reply. -/
theorem ack_reply_shape_for_status_and_events_witness :
    (processMessage initialData "t3" 0 sampleStatusMsg).replies =
      [{ status := "ok"
         timestamp := 0
         bestFitness := 0
         assignment := []
         nPlatforms := 0
         nTargets := 0
         stats := { computationTime := 0, iterations := 0, isValid := true, coverageRate := 0 }
         ttlSec := 0
         errorMsg := "" }] ∧
    (processMessage initialData "t3" 0 sampleKilledMsg).replies =
      (processMessage initialData "t3" 0 sampleStatusMsg).replies ∧
    (processMessage initialData "t3" 0 sampleDamageMsg).replies =
      (processMessage initialData "t3" 0 sampleStatusMsg).replies ∧
    (processMessage initialData "t3" 0 sampleFiredMsg).replies =
      (processMessage initialData "t3" 0 sampleStatusMsg).replies := by
  have h := ack_reply_shape_for_status_and_events initialData "t3" 0
    sampleStatusMsg _ rfl
  have hk := ack_reply_shape_for_status_and_events initialData "t3" 0
    sampleKilledMsg _ rfl
  have hd := ack_reply_shape_for_status_and_events initialData "t3" 0
    sampleDamageMsg _ rfl
  have hf := ack_reply_shape_for_status_and_events initialData "t3" 0
    sampleFiredMsg _ rfl
  refine ⟨h.1 rfl, ?_, ?_, ?_⟩
  · rw [hk.2.1 rfl rfl rfl, h.1 rfl]
  · rw [hd.2.2.1 rfl rfl rfl rfl, h.1 rfl]
  · rw [hf.2.2.2 rfl rfl rfl rfl rfl, h.1 rfl]

/-- C6: for every PlanRequest frame with `p` platforms and `t` targets, the
reply has status "ok", nPlatforms = p, nTargets = t, an empty assignment,
ttlSec = 2.0, and stats.isValid = true. -/
theorem planRequest_reply_echoes_counts
    (st : StoredData) (now : String) (nowTs : ℚ) (msg : WTAMessage)
    (pr : PlanRequest)
    (h0 : msg.statusReport = none) (h1 : msg.planRequest = some pr) :
    (processMessage st now nowTs msg).replies =
      [{ status := "ok"
         timestamp := nowTs
         bestFitness := 0
         assignment := []
         nPlatforms := pr.platforms.length
         nTargets := pr.targets.length
         stats := { computationTime := 1 / 1000, iterations := 0, isValid := true, coverageRate := 0 }
         ttlSec := 2
         errorMsg := "" }] := by
  obtain ⟨s, p, q, k, d, f⟩ := msg
  cases h0
  cases h1
  simp [processMessage]

/-- Witness for C6: the sample PlanRequest with 2 platforms and 3 targets
gets back nPlatforms = 2, nTargets = 3, empty assignment, ttlSec = 2. -/
theorem planRequest_reply_echoes_counts_witness :
    ((processMessage initialData "t4" 0 samplePlanMsg).replies.map
        fun r => (r.status, r.nPlatforms, r.nTargets, r.assignment, r.ttlSec,
          r.stats.isValid)) = [("ok", 2, 3, [], 2, true)] := by
  rw [planRequest_reply_echoes_counts initialData "t4" 0 samplePlanMsg
    samplePlanRequest rfl rfl]
  rfl

/-- C7: for every structurally valid frame in which none of the six variants
is populated, the reply has status "error", errorMsg "Unknown message type",
and stats.isValid = false. -/
theorem unknown_frame_error_reply
    (st : StoredData) (now : String) (nowTs : ℚ) (msg : WTAMessage)
    (h : msg.statusReport = none ∧ msg.planRequest = none ∧
      msg.planResponse = none ∧ msg.entityKilled = none ∧
      msg.damage = none ∧ msg.fired = none) :
    ((processMessage st now nowTs msg).replies.map
        fun r => (r.status, r.errorMsg, r.stats.isValid)) =
      [("error", "Unknown message type", false)] := by
  obtain ⟨s, p, q, k, d, f⟩ := msg
  obtain ⟨h1, h2, h3, h4, h5, h6⟩ := h
  cases h1; cases h2; cases h3; cases h4; cases h5; cases h6
  rfl

/-- Witness for C7 at the all-empty frame. -/
theorem unknown_frame_error_reply_witness :
    ((processMessage initialData "t5" 0 emptyMsg).replies.map
        fun r => (r.status, r.errorMsg, r.stats.isValid)) =
      [("error", "Unknown message type", false)] :=
  unknown_frame_error_reply initialData "t5" 0 emptyMsg
    ⟨rfl, rfl, rfl, rfl, rfl, rfl⟩

/-- C8: decoding the result of encoding any representable frame yields the
original frame. -/
theorem decode_encode_roundtrip (m : WTAMessage) :
    WTAMessage.decode (WTAMessage.encode m) = Except.ok m := by
  have h := pWTAMessage_enc m []
  rw [List.append_nil] at h
  simp [WTAMessage.decode, h]

/-- Survivor set after a broadcast: exactly the open, non-failing clients
(the sweep runs only after the pass completes). -/
theorem broadcastToClients_survivors (clients : List WsClient) (payload : String) :
    (broadcastToClients clients payload).1 =
      clients.filter fun c => decide (c.readyState = wsOPEN) && !c.sendFails := by
  cases clients with
  | nil => rfl
  | cons a as =>
    show ((a :: as).filter fun c => decide (c ∉ (broadcastPass payload (a :: as)).2)) = _
    rw [broadcastPass_disc]
    apply List.filter_congr
    intro x hx
    by_cases h1 : x.readyState = wsOPEN <;> cases h2 : x.sendFails <;>
      simp [List.mem_filter, hx, h1, h2]

/-- Deliveries of a broadcast: every open, non-failing client receives the
payload of the current pass. -/
theorem broadcastToClients_sent (clients : List WsClient) (payload : String) :
    (broadcastToClients clients payload).2 =
      (clients.filter fun c => decide (c.readyState = wsOPEN) && !c.sendFails).map
        (fun c => (c.id, payload)) := by
  cases clients with
  | nil => rfl
  | cons a as =>
    show (broadcastPass payload (a :: as)).1 = _
    exact broadcastPass_sent payload (a :: as)

/-- C9: the subscriber set is swept only after the broadcast pass: a
subscriber whose handle is not open or whose send fails is absent from the
set used by the next pass, while every open, non-failing subscriber stays in
the set and is delivered the payload of the current pass. -/
theorem broadcast_prunes_failed_after_pass
    (clients : List WsClient) (payload : String) (c : WsClient)
    (hc : c ∈ clients) :
    (c.readyState = wsOPEN → c.sendFails = false →
      c ∈ (broadcastToClients clients payload).1 ∧
      (c.id, payload) ∈ (broadcastToClients clients payload).2) ∧
    (¬(c.readyState = wsOPEN ∧ c.sendFails = false) →
      c ∉ (broadcastToClients clients payload).1) := by
  rw [broadcastToClients_survivors clients payload,
    broadcastToClients_sent clients payload]
  constructor
  · intro h1 h2
    constructor
    · exact List.mem_filter.mpr ⟨hc, by simp [h1, h2]⟩
    · exact List.mem_map.mpr ⟨c, List.mem_filter.mpr ⟨hc, by simp [h1, h2]⟩, rfl⟩
  · intro hbad hmem
    have hgood := (List.mem_filter.mp hmem).2
    simp only [Bool.and_eq_true, decide_eq_true_eq, Bool.not_eq_true'] at hgood
    exact hbad hgood

/-- Sample subscriber in the open state whose sends succeed. -/
def openClient : WsClient := ⟨1, 1, false⟩

/-- Sample subscriber in the open state whose send throws. -/
def failingClient : WsClient := ⟨2, 1, true⟩

/-- Sample subscriber whose handle is not in the open state. -/
def closedClient : WsClient := ⟨3, 3, false⟩

/-- Sample subscriber set for the broadcast witness. -/
def sampleClients : List WsClient := [openClient, failingClient, closedClient]

/-- Witness for C9: over the sample set, the open client stays and receives
the payload; the failing client is gone from the next pass's set. -/
theorem broadcast_prunes_failed_after_pass_witness :
    (openClient ∈ (broadcastToClients sampleClients "snap").1 ∧
      (1, "snap") ∈ (broadcastToClients sampleClients "snap").2) ∧
    failingClient ∉ (broadcastToClients sampleClients "snap").1 := by
  have h1 := broadcast_prunes_failed_after_pass sampleClients "snap" openClient
    (by decide)
  have h2 := broadcast_prunes_failed_after_pass sampleClients "snap" failingClient
    (by decide)
  exact ⟨h1.1 rfl rfl, h2.2 (by decide)⟩

/-- C10: the timestamp stored in the Snapshot is the server's receipt time:
the stored snapshot ignores the StatusReport frame's own timestamp field
entirely, and two ingestions of the same frame at distinct receipt times
yield Snapshots differing in timestamp. -/
theorem snapshot_timestamp_is_receipt_time
    (st : StoredData) (now now' : String) (nowTs : ℚ) (msg : WTAMessage)
    (sr : StatusReportEvent) (hmsg : msg.statusReport = some sr)
    (hne : now' ≠ now) :
    (processMessage st now nowTs msg).data.timestamp = some now ∧
    (∀ t : ℚ,
      (processMessage st now nowTs
          { msg with statusReport := some { sr with timestamp := t } }).data =
        (processMessage st now nowTs msg).data) ∧
    (processMessage st now' nowTs msg).data.timestamp ≠
      (processMessage st now nowTs msg).data.timestamp := by
  obtain ⟨s, p, q, k, d, f⟩ := msg
  cases hmsg
  refine ⟨rfl, ?_, ?_⟩
  · intro t
    simp [processMessage]
  · simp only [processMessage]
    intro h
    exact hne (Option.some.inj h)

/-- Witness for C10: byte-identical sample StatusReport frames ingested at
receipt times "t6" and "t7" store those receipt times, which differ. -/
theorem snapshot_timestamp_is_receipt_time_witness :
    (processMessage initialData "t6" 0 sampleStatusMsg).data.timestamp = some "t6" ∧
    (processMessage initialData "t7" 0 sampleStatusMsg).data.timestamp ≠
      (processMessage initialData "t6" 0 sampleStatusMsg).data.timestamp := by
  have h := snapshot_timestamp_is_receipt_time initialData "t6" "t7" 0
    sampleStatusMsg sampleStatusReport rfl (by decide)
  exact ⟨h.1, h.2.2⟩

end WTA
